import Mathlib

/-
  Verification of the NanoMQ broker core (src/nanomq/apps/broker.c) against
  its natural-language specification.  The worker state machine server_cb is
  embedded branch by branch as pure Lean transition functions over explicit
  work-item state; nanolib helpers that are declared but not present under
  src/ (hash table, session cache, mqtt topic matching, message composers)
  are modelled from the specification and marked as such in their doc
  comments.
-/

namespace NanoMQ

/-- Worker states of the server_cb state machine (broker.c, work->state). -/
inductive WorkState where
  | INIT
  | RECV
  | WAIT
  | SEND
  | BRIDGE
  deriving DecidableEq, Repr

/-- MQTT command types dispatched on by server_cb (nng_msg_cmd_type). -/
inductive cmd_type where
  | CMD_CONNECT
  | CMD_CONNACK
  | CMD_PUBLISH
  | CMD_PUBACK
  | CMD_PUBREC
  | CMD_PUBREL
  | CMD_PUBCOMP
  | CMD_SUBSCRIBE
  | CMD_SUBACK
  | CMD_UNSUBSCRIBE
  | CMD_UNSUBACK
  | CMD_PINGREQ
  | CMD_PINGRESP
  | CMD_DISCONNECT
  | CMD_DISCONNECT_EV
  deriving DecidableEq, Repr

/-- Length-tagged string as used by the mqtt wire structures; only the body
    matters for the semantics embedded here. -/
structure mqtt_string where
  body : String
  deriving DecidableEq, Repr, Inhabited

/-- Conn-param snapshot of CONNECT fields (conn_param in the transport
    library; the accessors used by broker.c are mirrored below). -/
structure conn_param where
  clientid : Option String
  will_flag : Bool
  will_retain : Bool
  will_qos : Nat
  will_topic : mqtt_string
  will_msg : mqtt_string
  clean_start : Nat
  proto_ver : Nat
  deriving DecidableEq, Repr, Inhabited

def conn_param_get_will_flag (cp : conn_param) : Bool := cp.will_flag

def conn_param_get_will_retain (cp : conn_param) : Bool := cp.will_retain

def conn_param_get_will_qos (cp : conn_param) : Nat := cp.will_qos

def conn_param_get_will_msg (cp : conn_param) : mqtt_string := cp.will_msg

def conn_param_get_will_topic (cp : conn_param) : mqtt_string := cp.will_topic

def conn_param_get_clientid (cp : conn_param) : Option String := cp.clientid

def conn_param_get_clean_start (cp : conn_param) : Nat := cp.clean_start

def conn_param_get_protover (cp : conn_param) : Nat := cp.proto_ver

/-- An nng message as seen by server_cb: command tag, header bytes, the
    publish-relevant fields and the destination pipe. -/
structure nng_msg where
  cmd : cmd_type
  header : List Nat
  retain : Bool
  qos : Nat
  topic : String
  payload : String
  pipe : Nat
  deriving DecidableEq, Repr

/-- nng_msg_set_cmd_type: overwrite the command tag of a message. -/
def nng_msg_set_cmd_type (m : nng_msg) (c : cmd_type) : nng_msg := { m with cmd := c }

/-- nng_msg_set_pipe: set the destination pipe of a message. -/
def nng_msg_set_pipe (m : nng_msg) (p : Nat) : nng_msg := { m with pipe := p }

/-- Association lookup used to model the nanolib hash tables. -/
def assoc_get {α β : Type} [DecidableEq α] (k : α) : List (α × β) → Option β
  | [] => none
  | (a, b) :: rest => if a = k then some b else assoc_get k rest

/-- Modelled from the spec: dbhash_check_id (pipe index, 4.B; hash_table.c
    is not under src) tests whether a pipe-id has a topic-queue entry. -/
def dbhash_check_id (pid : Nat) (idx : List (Nat × List String)) : Bool :=
  (assoc_get pid idx).isSome

/-- Modelled from the spec: dbhash_get_topic_queue (4.B) returns the topic
    list currently held by the pipe. -/
def dbhash_get_topic_queue (pid : Nat) (idx : List (Nat × List String)) :
    List String :=
  (assoc_get pid idx).getD []

/-- Modelled from the spec: dbhash_del_topic_queue (4.B) removes the
    pipe-id entry from the pipe index. -/
def dbhash_del_topic_queue (pid : Nat) (idx : List (Nat × List String)) :
    List (Nat × List String) :=
  idx.filter (fun e => decide (e.1 ≠ pid))

/-- Per-destination record of the pipe-fanout descriptor
    (struct pipe_info, used via work->pipe_ct->pipe_info in broker.c). -/
structure pipe_info where
  pipe : Nat
  qos : Nat
  cmd : Nat
  deriving DecidableEq, Repr, Inhabited

/-- Pipe-fanout descriptor (struct pipe_content): a vector of pipe_info
    records, its length total, and the dispatch cursor current_index. -/
structure pipe_content where
  total : Nat
  current_index : Nat
  infos : List pipe_info
  deriving DecidableEq, Repr

/-- Modelled from the spec: init_pipe_content (pub handler, not under src)
    resets the fanout descriptor after a PUBLISH is fully dispatched. -/
def init_pipe_content : pipe_content :=
  { total := 0, current_index := 0, infos := [] }

/-- The slice of the work item that the WAIT, CMD_PUBLISH branch of
    server_cb reads and writes (broker.c lines 444-507).  The Bool fields
    track whether the corresponding allocation is still live; sent_pipes
    records the destinations handed to nng_ctx_send; index_trace records
    every value taken by current_index during the dispatch. -/
structure pub_work where
  pipe_ct : pipe_content
  pub_packet_alloc : Bool
  pipe_info_alloc : Bool
  msg_alloc : Bool
  proto_bridge : Bool
  state : WorkState
  recv_armed : Bool
  sent_pipes : List Nat
  index_trace : List Nat
  deriving DecidableEq, Repr

/-- The while loop of the WAIT, CMD_PUBLISH branch
    (while total greater than current_index: clone, set pipe, advance
    current_index, send), written with explicit fuel; the loop runs
    exactly total - current_index iterations, so that fuel suffices. -/
def fanout_send_aux (infos : List pipe_info) (total : Nat) :
    Nat → Nat → List Nat → List Nat → Nat × List Nat × List Nat
  | 0, ci, sent, trace => (ci, sent, trace)
  | fuel + 1, ci, sent, trace =>
    if total > ci then
      fanout_send_aux infos total fuel (ci + 1)
        (sent ++ [(infos.getD ci default).pipe]) (trace ++ [ci + 1])
    else (ci, sent, trace)

def fanout_send_loop (infos : List pipe_info) (total ci : Nat)
    (sent trace : List Nat) : Nat × List Nat × List Nat :=
  fanout_send_aux infos total (total - ci) ci sent trace

/-- WAIT branch of server_cb for CMD_PUBLISH (broker.c lines 444-507):
    when total is positive, drive the send loop, and once the cursor has
    reached total free the pub packet and the pipe-info vector and reset
    the descriptor, then go to SEND after freeing the shared message;
    when total is zero, free the message, release the same allocations,
    reset and re-arm the receive in state RECV (or BRIDGE). -/
def wait_publish_step (w : pub_work) : pub_work :=
  let ct := w.pipe_ct
  if ct.total > 0 then
    let r := fanout_send_loop ct.infos ct.total ct.current_index
      w.sent_pipes (w.index_trace ++ [ct.current_index])
    let w1 := { w with sent_pipes := r.2.1, index_trace := r.2.2,
                       pipe_ct := { ct with current_index := r.1 } }
    let w2 :=
      if ct.total ≤ r.1 then
        { w1 with pub_packet_alloc := false, pipe_info_alloc := false,
                  pipe_ct := init_pipe_content }
      else w1
    { w2 with state := WorkState.SEND, msg_alloc := false }
  else
    { w with msg_alloc := false, pub_packet_alloc := false,
             pipe_info_alloc := false, pipe_ct := init_pipe_content,
             state := if w.proto_bridge then WorkState.BRIDGE
                      else WorkState.RECV,
             recv_armed := true }

/-- Modelled from the spec: nano_msg_composer (4.G, not under src) builds
    a PUBLISH message from the will fields (will-retain, will-qos,
    will-msg, will-topic). -/
def nano_msg_composer (retain : Bool) (qos : Nat) (wmsg wtopic : mqtt_string) :
    nng_msg :=
  { cmd := cmd_type.CMD_PUBLISH, header := [], retain := retain, qos := qos,
    topic := wtopic.body, payload := wmsg.body, pipe := 0 }

/-- The slice of the work item read and written by the RECV,
    CMD_DISCONNECT branch of server_cb (broker.c lines 168-186 followed by
    the common tail at 292-295).  pub_handled records the message the
    publish handler was invoked on; cparam_freed records whether
    conn_param_free ran in the branch. -/
structure disc_work where
  msg : Option nng_msg
  cparam : conn_param
  cparam_freed : Bool
  pid : Nat
  pipe_index : List (Nat × List String)
  pub_handled : Option nng_msg
  state : WorkState
  recv_armed : Bool
  deriving DecidableEq, Repr

/-- Modelled from the spec: handle_pub (4.C, pub_handler.c not under src)
    resolves the PUBLISH held in the work item against the topic tree and
    fills the fanout descriptor; here only the fact that it ran on the
    work item's message is recorded. -/
def handle_pub_disc (w : disc_work) : disc_work := { w with pub_handled := w.msg }

/-- RECV branch of server_cb for CMD_DISCONNECT (broker.c lines 168-186):
    with will-flag set, compose a PUBLISH from the will fields, tag it
    CMD_PUBLISH, run the publish handler and fall through to the common
    tail that sets state WAIT; without will-flag, clear the message slot,
    set state RECV and re-arm the receive.  Neither arm touches the pipe
    index or frees the conn-param. -/
def recv_disconnect_step (w : disc_work) : disc_work :=
  if conn_param_get_will_flag w.cparam then
    let m := nano_msg_composer (conn_param_get_will_retain w.cparam)
      (conn_param_get_will_qos w.cparam)
      (conn_param_get_will_msg w.cparam)
      (conn_param_get_will_topic w.cparam)
    let m := nng_msg_set_cmd_type m cmd_type.CMD_PUBLISH
    let w := handle_pub_disc { w with msg := some m }
    { w with state := WorkState.WAIT }
  else
    { w with msg := none, state := WorkState.RECV, recv_armed := true }

/-- A cached session (4.B): conn-param snapshot, the pipe-id at cache
    time and the subscription list held by that pipe. -/
structure session where
  scparam : conn_param
  spipe : Nat
  subs : List String
  deriving DecidableEq, Repr

/-- The shared broker tables: the pipe index (pipe-id to topic-queue), the
    flattened topic tree (topic filter to subscriber pipe-ids) and the
    session cache keyed by client-id. -/
structure broker_db where
  pipe_index : List (Nat × List String)
  tree_subs : List (String × List Nat)
  sessions : List (String × session)
  deriving DecidableEq, Repr

/-- Modelled from the spec: dbtree_delete_client (4.A, mqtt_db not under
    src) removes the subscriber with the given pipe-id from the tree node
    of the topic. -/
def dbtree_delete_client (t : List (String × List Nat)) (topic : String)
    (pid : Nat) : List (String × List Nat) :=
  t.map (fun e => if e.1 = topic then (e.1, e.2.filter (fun p => decide (p ≠ pid)))
                  else e)

/-- Modelled from the spec: cache_session (4.B, hash table code not under
    src) stores under the client-id the conn-param snapshot, the pipe-id
    at cache time and the pipe's current subscription list, replacing any
    stale entry for the same client-id. -/
def cache_session (clientid : String) (cp : conn_param) (pid : Nat)
    (db : broker_db) : broker_db :=
  { db with sessions :=
      (clientid, { scparam := cp, spipe := pid,
                   subs := dbhash_get_topic_queue pid db.pipe_index }) ::
      db.sessions.filter (fun e => decide (e.1 ≠ clientid)) }

/-- Modelled from the spec: restore_session (4.B) consumes the cache entry
    of the client-id; with clean-start = 0 on the new conn-param it
    re-binds the cached subscriptions to the new pipe-id in both the pipe
    index and every topic-tree node, while with clean-start = 1 the entry
    is evicted without re-binding. -/
def restore_session (clientid : String) (cp : conn_param) (newpid : Nat)
    (db : broker_db) : broker_db :=
  match assoc_get clientid db.sessions with
  | none => db
  | some s =>
    if conn_param_get_clean_start cp = 0 then
      { pipe_index := (newpid, s.subs) ::
          db.pipe_index.filter (fun e => decide (e.1 ≠ newpid)),
        tree_subs := db.tree_subs.map (fun e =>
          if e.1 ∈ s.subs then (e.1, newpid :: e.2.filter (fun p => decide (p ≠ s.spipe)))
          else e),
        sessions := db.sessions.filter (fun e => decide (e.1 ≠ clientid)) }
    else
      { db with sessions := db.sessions.filter (fun e => decide (e.1 ≠ clientid)) }

/-- The slice of the work item read and written by the RECV,
    CMD_DISCONNECT_EV branch of server_cb (broker.c lines 260-295). -/
structure ev_work where
  msg : Option nng_msg
  cparam : Option conn_param
  cparam_freed : Bool
  pid : Nat
  db : broker_db
  pub_handled : Option nng_msg
  state : WorkState
  deriving DecidableEq, Repr

/-- RECV branch of server_cb for CMD_DISCONNECT_EV (broker.c lines
    260-295): tag the event message CMD_PUBLISH and run the publish
    handler; cache the session when the client-id is non-null and
    clean-start is 0; then, if the pipe has a pipe-index entry, delete its
    client contexts from every tree node on its topic queue and drop the
    entry; finally null out and free the conn-param, and fall through to
    the common tail that sets state WAIT. -/
def recv_disconnect_ev_step (w : ev_work) : ev_work :=
  let w := { w with
    msg := w.msg.map (fun m => nng_msg_set_cmd_type m cmd_type.CMD_PUBLISH) }
  let w := { w with pub_handled := w.msg }
  let w :=
    match w.cparam with
    | some cp =>
      match conn_param_get_clientid cp with
      | some cid =>
        if conn_param_get_clean_start cp = 0 then
          { w with db := cache_session cid cp w.pid w.db }
        else w
      | none => w
    | none => w
  let w :=
    if dbhash_check_id w.pid w.db.pipe_index then
      let tq := dbhash_get_topic_queue w.pid w.db.pipe_index
      let tree := tq.foldl (fun t topic => dbtree_delete_client t topic w.pid)
        w.db.tree_subs
      { w with db :=
          { w.db with
            tree_subs := tree,
            pipe_index := dbhash_del_topic_queue w.pid w.db.pipe_index } }
    else w
  { w with cparam := none, cparam_freed := true, state := WorkState.WAIT }

/-- Events on a conn-param snapshot during the CMD_CONNACK branch, in the
    order the branch performs them. -/
inductive cp_event where
  | clone
  | send_connack
  | notify_composed
  | free
  deriving DecidableEq, Repr

/-- Modelled from the spec: nano_msg_notify_connect (4.G, not under src)
    synthesizes a publication on a system topic carrying the connect
    flags byte. -/
def nano_msg_notify_connect (cp : conn_param) (flag : Nat) : nng_msg :=
  { cmd := cmd_type.CMD_PUBLISH, header := [], retain := false, qos := 0,
    topic := "$SYS/brokers/connected",
    payload := ((conn_param_get_clientid cp).getD "") ++ toString flag,
    pipe := 0 }

/-- The slice of the work item read and written by the RECV, CMD_CONNACK
    branch of server_cb (broker.c lines 225-259).  clone_count and
    free_count count conn_param_clone and conn_param_free calls, and
    events records the branch's conn-param life-cycle trace. -/
structure connack_work where
  msg : Option nng_msg
  cparam : Option conn_param
  pid : Nat
  db : broker_db
  clone_count : Nat
  free_count : Nat
  events : List cp_event
  pub_handled : Option nng_msg
  state : WorkState
  deriving DecidableEq, Repr

/-- RECV branch of server_cb for CMD_CONNACK (broker.c lines 225-259):
    set the pipe on the CONNACK, clone the conn-param when it is non-null,
    restore a cached session when the client-id is non-null, clone the
    message and issue the asynchronous CONNACK send, read the flags byte
    at header offset 3 and compose the connect-event notification, tag it
    CMD_PUBLISH, run the publish handler on it, free the conn-param once,
    and finish in state WAIT. -/
def recv_connack_step (w : connack_work) : connack_work :=
  let w := { w with msg := w.msg.map (fun m => nng_msg_set_pipe m w.pid) }
  let w :=
    match w.cparam with
    | some _ => { w with clone_count := w.clone_count + 1,
                         events := w.events ++ [cp_event.clone] }
    | none => w
  let w :=
    match w.cparam with
    | some cp =>
      match conn_param_get_clientid cp with
      | some cid => { w with db := restore_session cid cp w.pid w.db }
      | none => w
    | none => w
  let w := { w with events := w.events ++ [cp_event.send_connack] }
  let flag := (((w.msg.map nng_msg.header).getD []).getD 3 0)
  let smsg := nano_msg_notify_connect ((w.cparam).getD default) flag
  let smsg := nng_msg_set_cmd_type smsg cmd_type.CMD_PUBLISH
  let w := { w with events := w.events ++ [cp_event.notify_composed],
                    msg := some smsg, pub_handled := some smsg }
  let w := { w with free_count := w.free_count + 1,
                    events := w.events ++ [cp_event.free] }
  { w with state := WorkState.WAIT }

/-- Split a character list into the topic levels separated by the slash
    character. -/
def split_levels : List Char → List Char → List (List Char)
  | [], acc => [acc.reverse]
  | c :: cs, acc =>
    if c = '/' then acc.reverse :: split_levels cs []
    else split_levels cs (c :: acc)

def topic_levels (s : String) : List (List Char) := split_levels s.data []

/-- Level-wise filter matching: a literal level must be equal, a plus
    level matches exactly one topic level, and a hash as the final filter
    level matches any remainder of the topic. -/
def match_levels : List (List Char) → List (List Char) → Bool
  | [fl], ts =>
    if fl = ['#'] then true
    else match ts with
      | [t] => fl = ['+'] || fl = t
      | _ => false
  | [], [] => true
  | [], _ :: _ => false
  | _ :: _, [] => false
  | fl :: fls, t :: ts => (fl = ['+'] || fl = t) && match_levels fls ts

/-- Modelled from the spec: topic_filter (mqtt_parser, not under src)
    decides whether a concrete topic matches a possibly wildcarded filter
    per the data model of section 3. -/
def topic_filter (filter topic : String) : Bool :=
  match_levels (topic_levels filter) (topic_levels topic)

/-- Decoded PUBLISH packet fields consulted by the bridge-forwarding code
    (work->pub_packet: variable_header.publish.topic_name,
    payload_body.payload and payload_len, fixed_header.dup, qos,
    retain). -/
structure pub_packet_struct where
  topic_name : String
  payload : String
  payload_len : Nat
  dup : Bool
  qos : Nat
  retain : Bool
  deriving DecidableEq, Repr

/-- Bridge configuration slice consulted by the forwarding code
    (conf_bridge in conf.h: bridge_mode and the forwards array). -/
structure conf_bridge_fw where
  bridge_mode : Bool
  forwards : List String
  deriving DecidableEq, Repr

/-- A PUBLISH composed for the bridge context. -/
structure bridge_msg where
  topic : String
  payload : String
  payload_len : Nat
  dup : Bool
  qos : Nat
  retain : Bool
  deriving DecidableEq, Repr

/-- Modelled from the spec: bridge_publish_msg (bridge.c, not under src)
    composes a new PUBLISH preserving topic, payload, dup, qos and retain
    for the bridge context's send path. -/
def bridge_publish_msg (topic payload : String) (len : Nat) (dup : Bool)
    (qos : Nat) (retain : Bool) : bridge_msg :=
  { topic := topic, payload := payload, payload_len := len,
    dup := dup, qos := qos, retain := retain }

/-- The forwards scan of the RECV, CMD_PUBLISH branch (broker.c lines
    194-204): found is set as soon as one forwards filter matches the
    PUBLISH topic. -/
def forwards_found (forwards : List String) (topic : String) : Bool :=
  forwards.any (fun f => topic_filter f topic)

/-- Bridge-forwarding part of the RECV, CMD_PUBLISH branch (broker.c
    lines 192-224): with bridge_mode on and a matching forwards filter,
    compose the bridge PUBLISH from the decoded packet and hand it to the
    bridge context send; otherwise nothing is sent on the bridge. -/
def recv_publish_bridge (bridge : conf_bridge_fw) (pkt : pub_packet_struct) :
    Option bridge_msg :=
  if bridge.bridge_mode then
    if forwards_found bridge.forwards pkt.topic_name then
      some (bridge_publish_msg pkt.topic_name pkt.payload pkt.payload_len
        pkt.dup pkt.qos pkt.retain)
    else none
  else none

/-- Reason codes returned by the sub and unsub handlers; server_cb only
    compares them against SUCCESS. -/
inductive reason_code where
  | SUCCESS
  | ERR (n : Nat)
  deriving DecidableEq, Repr

/-- Outbound packets issued by the SUBSCRIBE and UNSUBSCRIBE branches, in
    the order nng_ctx_send is called. -/
inductive out_msg where
  | retained (m : nng_msg)
  | suback
  | unsuback
  deriving DecidableEq, Repr

/-- The slice of the work item read and written by the WAIT,
    CMD_SUBSCRIBE branch of server_cb (broker.c lines 329-395).  msg_ret
    is the retained-replay vector; sends records the outbound sequence. -/
structure sub_work where
  pid : Nat
  pipe_index : List (Nat × List String)
  sub_pkt_alloc : Bool
  msg_freed : Bool
  msg_ret : List nng_msg
  sends : List out_msg
  state : WorkState
  deriving DecidableEq, Repr

/-- Modelled from the spec: sub_ctx_handle (4.D, sub_handler.c not under
    src) allocates a client context per decoded filter, inserts it into
    the topic tree and records the filters in the pipe index; only the
    pipe-index effect is modelled here, its reason code is an input. -/
def sub_ctx_handle_index (pid : Nat) (filters : List String)
    (idx : List (Nat × List String)) : List (Nat × List String) :=
  (pid, ((assoc_get pid idx).getD []) ++ filters) ::
    idx.filter (fun e => decide (e.1 ≠ pid))

/-- WAIT branch of server_cb for CMD_SUBSCRIBE (broker.c lines 329-395):
    allocate the sub packet, run decode, context handling and SUBACK
    encoding with C short-circuit evaluation; on any failure drop the
    pipe-index (topic-queue) entry of the pipe if present; in either case
    free the inbound message and destroy the sub packet, send every
    retained replay of msg_ret, then send the SUBACK and go to SEND.  The
    decoded filter list and the three reason codes stand in for the
    handlers, which are not under src. -/
def wait_subscribe_step (w : sub_work) (filters : List String)
    (decode_r ctx_r encode_r : reason_code) : sub_work :=
  let w := { w with sub_pkt_alloc := true }
  let step :=
    if decode_r ≠ reason_code.SUCCESS then (w.pipe_index, decode_r)
    else
      let idx := sub_ctx_handle_index w.pid filters w.pipe_index
      if ctx_r ≠ reason_code.SUCCESS then (idx, ctx_r)
      else (idx, encode_r)
  let idx2 :=
    if step.2 ≠ reason_code.SUCCESS then
      if dbhash_check_id w.pid step.1 then dbhash_del_topic_queue w.pid step.1
      else step.1
    else step.1
  let w := { w with pipe_index := idx2, msg_freed := true,
                    sub_pkt_alloc := false }
  let w := { w with sends := w.sends ++ w.msg_ret.map out_msg.retained }
  { w with sends := w.sends ++ [out_msg.suback], state := WorkState.SEND }

/-- The slice of the work item read and written by the WAIT,
    CMD_UNSUBSCRIBE branch of server_cb (broker.c lines 396-443).
    out_pipe is the pipe id carried by the UNSUBACK reply handed to
    nng_ctx_send. -/
structure unsub_work where
  pid : Nat
  unsub_pkt_alloc : Bool
  msg_freed : Bool
  out_pipe : Option Nat
  state : WorkState
  deriving DecidableEq, Repr

/-- WAIT branch of server_cb for CMD_UNSUBSCRIBE (broker.c lines
    396-443): allocate the unsub packet, run decode, context handling and
    UNSUBACK encoding (reason codes stand in for the handlers, which only
    affect debug output here), destroy the unsub packet, free the inbound
    message, then set work->pid.id to 0, stamp that pipe id on the
    UNSUBACK, and send it in state SEND. -/
def wait_unsubscribe_step (w : unsub_work)
    (decode_r ctx_r encode_r : reason_code) : unsub_work :=
  let w := { w with unsub_pkt_alloc := true }
  let w := { w with unsub_pkt_alloc := false, msg_freed := true }
  { w with pid := 0, out_pipe := some 0, state := WorkState.SEND }

/-- Command-line options recognized by broker_parse_opts (enum options in
    broker.c); only the value-carrying cases relevant to the configuration
    are listed. -/
inductive options where
  | OPT_PARALLEL
  | OPT_DAEMON
  | OPT_THREADS
  | OPT_MAX_THREADS
  | OPT_PROPERTY_SIZE
  | OPT_MSQ_LEN
  | OPT_QOS_DURATION
  | OPT_HTTP_ENABLE
  | OPT_HTTP_PORT
  deriving DecidableEq, Repr

/-- The numeric configuration fields of struct conf (conf.h) touched by
    broker_parse_opts. -/
structure conf_num where
  num_taskq_thread : Int
  max_taskq_thread : Int
  parallel : Int
  property_size : Int
  msq_len : Int
  qos_duration : Int
  http_enable : Bool
  http_port : Int
  daemon : Bool
  deriving DecidableEq, Repr

def atoi_digits : List Char → Int → Int
  | [], acc => acc
  | c :: cs, acc =>
    if c.isDigit then atoi_digits cs (acc * 10 + (Int.ofNat c.toNat - 48))
    else acc

def atoi_core : List Char → Int
  | '-' :: cs => - atoi_digits cs 0
  | '+' :: cs => atoi_digits cs 0
  | cs => atoi_digits cs 0

/-- C atoi: skip leading whitespace, read an optional sign and then the
    longest run of digits; no range or validity checking. -/
def atoi (s : String) : Int :=
  atoi_core (s.data.dropWhile (fun c => c = ' ' || c = '\t' || c = '\n'))

/-- One iteration of the option switch in broker_parse_opts (broker.c
    lines 830-888): every numeric option stores atoi of its argument into
    the configuration unchecked. -/
def broker_apply_opt (config : conf_num) (o : options) (arg : String) :
    conf_num :=
  match o with
  | options.OPT_PARALLEL => { config with parallel := atoi arg }
  | options.OPT_DAEMON => { config with daemon := true }
  | options.OPT_THREADS => { config with num_taskq_thread := atoi arg }
  | options.OPT_MAX_THREADS => { config with max_taskq_thread := atoi arg }
  | options.OPT_PROPERTY_SIZE => { config with property_size := atoi arg }
  | options.OPT_MSQ_LEN => { config with msq_len := atoi arg }
  | options.OPT_QOS_DURATION => { config with qos_duration := atoi arg }
  | options.OPT_HTTP_ENABLE => { config with http_enable := true }
  | options.OPT_HTTP_PORT => { config with http_port := atoi arg }

/-- Zero-initialized configuration as allocated by nng_zalloc in
    broker_start before option parsing. -/
def conf_zero : conf_num :=
  { num_taskq_thread := 0, max_taskq_thread := 0, parallel := 0,
    property_size := 0, msq_len := 0, qos_duration := 0,
    http_enable := false, http_port := 0, daemon := false }

/- Concrete inputs used by the counterexamples and witnesses below. -/

/-- A conn-param with will-flag cleared (clean disconnect, client alice). -/
def cp_nowill : conn_param :=
  { clientid := some "alice", will_flag := false, will_retain := false,
    will_qos := 0, will_topic := { body := "" }, will_msg := { body := "" },
    clean_start := 0, proto_ver := 4 }

/-- A conn-param with will-flag set and the will fields of scenario S4. -/
def cp_will : conn_param :=
  { clientid := some "alice", will_flag := true, will_retain := false,
    will_qos := 1, will_topic := { body := "lastwill/alice" },
    will_msg := { body := "bye" }, clean_start := 0, proto_ver := 4 }

/-- An inbound DISCONNECT message on pipe 5. -/
def disc_msg0 : nng_msg :=
  { cmd := cmd_type.CMD_DISCONNECT, header := [], retain := false, qos := 0,
    topic := "", payload := "", pipe := 5 }

/-- Work item holding a will-less DISCONNECT while pipe 5 owns a
    subscription. -/
def disc_w0 : disc_work :=
  { msg := some disc_msg0, cparam := cp_nowill, cparam_freed := false,
    pid := 5, pipe_index := [(5, ["news/#"])], pub_handled := none,
    state := WorkState.RECV, recv_armed := false }

/-- Work item holding a DISCONNECT with a will while pipe 5 owns a
    subscription. -/
def disc_w1 : disc_work :=
  { disc_w0 with cparam := cp_will }

/-- A fanout work item with two destinations pending. -/
def pub_w0 : pub_work :=
  { pipe_ct := { total := 2, current_index := 0,
                 infos := [{ pipe := 11, qos := 0, cmd := 3 },
                           { pipe := 12, qos := 1, cmd := 3 }] },
    pub_packet_alloc := true, pipe_info_alloc := true, msg_alloc := true,
    proto_bridge := false, state := WorkState.WAIT, recv_armed := false,
    sent_pipes := [], index_trace := [] }

/-- A fanout work item with no matching subscriber (fanout.total = 0). -/
def pub_w1 : pub_work :=
  { pub_w0 with pipe_ct := { total := 0, current_index := 0, infos := [] } }

/-- Conn-param of the reconnecting alice, clean-start 0. -/
def cp_alice2 : conn_param :=
  { clientid := some "alice", will_flag := false, will_retain := false,
    will_qos := 0, will_topic := { body := "" }, will_msg := { body := "" },
    clean_start := 0, proto_ver := 4 }

/-- A DISCONNECT_EV work item: alice on pipe 7 holds news/# when the pipe
    is lost. -/
def ev_w0 : ev_work :=
  { msg := some { cmd := cmd_type.CMD_DISCONNECT_EV, header := [],
                  retain := false, qos := 0, topic := "",
                  payload := "", pipe := 7 },
    cparam := some cp_nowill, cparam_freed := false, pid := 7,
    db := { pipe_index := [(7, ["news/#"])], tree_subs := [("news/#", [7])],
            sessions := [] },
    pub_handled := none, state := WorkState.RECV }

/-- A CONNACK work item for alice reconnecting on pipe 8 against the
    tables left by processing ev_w0. -/
def cn_w0 : connack_work :=
  { msg := some { cmd := cmd_type.CMD_CONNACK, header := [32, 2, 0, 0],
                  retain := false, qos := 0, topic := "",
                  payload := "", pipe := 8 },
    cparam := some cp_alice2, pid := 8,
    db := (recv_disconnect_ev_step ev_w0).db,
    clone_count := 0, free_count := 0, events := [], pub_handled := none,
    state := WorkState.RECV }

/-- Bridge configuration of scenario S5: forwards cloud topics only. -/
def bridge_fw0 : conf_bridge_fw :=
  { bridge_mode := true, forwards := ["cloud/#"] }

/-- A local PUBLISH on cloud/temp. -/
def pkt_cloud : pub_packet_struct :=
  { topic_name := "cloud/temp", payload := "21", payload_len := 2,
    dup := false, qos := 1, retain := false }

/-- A local PUBLISH on local/temp. -/
def pkt_local : pub_packet_struct :=
  { topic_name := "local/temp", payload := "21", payload_len := 2,
    dup := false, qos := 1, retain := false }

/-- A SUBSCRIBE work item for pipe 3 that already owns a topic. -/
def sub_w0 : sub_work :=
  { pid := 3, pipe_index := [(3, ["a/b"])], sub_pkt_alloc := false,
    msg_freed := false, msg_ret := [], sends := [],
    state := WorkState.WAIT }

/-- A retained message replayed to a fresh subscriber. -/
def ret_m0 : nng_msg :=
  { cmd := cmd_type.CMD_PUBLISH, header := [], retain := true, qos := 0,
    topic := "state/door", payload := "open", pipe := 0 }

/-- A SUBSCRIBE work item whose retained-replay vector is non-empty. -/
def sub_w1 : sub_work :=
  { sub_w0 with msg_ret := [ret_m0] }

/- Helper lemmas about the fanout send loop. -/

theorem fanout_send_aux_fst (infos : List pipe_info) (total : Nat) :
    ∀ fuel ci sent trace, ci ≤ total → total - ci ≤ fuel →
      (fanout_send_aux infos total fuel ci sent trace).1 = total := by
  intro fuel
  induction fuel with
  | zero =>
    intro ci sent trace h1 h2
    simp only [fanout_send_aux]
    omega
  | succ n ih =>
    intro ci sent trace h1 h2
    rw [fanout_send_aux]
    by_cases hlt : total > ci
    · simp only [hlt, if_true]
      exact ih (ci + 1) _ _ (by omega) (by omega)
    · simp only [hlt, if_false]
      omega

theorem fanout_send_aux_trace (infos : List pipe_info) (total : Nat) :
    ∀ fuel ci sent trace, (∀ x ∈ trace, x ≤ total) →
      ∀ x ∈ (fanout_send_aux infos total fuel ci sent trace).2.2, x ≤ total := by
  intro fuel
  induction fuel with
  | zero =>
    intro ci sent trace h
    simpa only [fanout_send_aux] using h
  | succ n ih =>
    intro ci sent trace h
    rw [fanout_send_aux]
    by_cases hlt : total > ci
    · simp only [hlt, if_true]
      refine ih (ci + 1) _ _ ?_
      intro x hx
      rcases List.mem_append.1 hx with hx | hx
      · exact h x hx
      · simp only [List.mem_singleton] at hx
        omega
    · simp only [hlt, if_false]
      exact h

/-- C1: for every pipe-fanout descriptor, at every point during a PUBLISH
    dispatch current_index stays at most total; once the cursor has
    reached total the per-packet allocations (pub_packet and pipe_info)
    are released and the descriptor is reset; and with fanout.total = 0
    the message is still released and the receive re-armed. -/
theorem publish_dispatch_fanout_invariant (w : pub_work)
    (h : w.pipe_ct.current_index ≤ w.pipe_ct.total)
    (htr : w.index_trace = []) :
    (∀ x ∈ (wait_publish_step w).index_trace, x ≤ w.pipe_ct.total) ∧
    ((wait_publish_step w).pub_packet_alloc = false ∧
     (wait_publish_step w).pipe_info_alloc = false ∧
     (wait_publish_step w).pipe_ct = init_pipe_content) ∧
    (w.pipe_ct.total = 0 →
     (wait_publish_step w).msg_alloc = false ∧
     (wait_publish_step w).recv_armed = true) := by
  unfold wait_publish_step
  by_cases h0 : w.pipe_ct.total > 0
  · have hfst : (fanout_send_loop w.pipe_ct.infos w.pipe_ct.total
        w.pipe_ct.current_index w.sent_pipes
        (w.index_trace ++ [w.pipe_ct.current_index])).1 = w.pipe_ct.total :=
      fanout_send_aux_fst _ _ _ _ _ _ h (le_refl _)
    have htrace : ∀ x ∈ (fanout_send_loop w.pipe_ct.infos w.pipe_ct.total
        w.pipe_ct.current_index w.sent_pipes
        (w.index_trace ++ [w.pipe_ct.current_index])).2.2,
        x ≤ w.pipe_ct.total := by
      refine fanout_send_aux_trace _ _ _ _ _ _ ?_
      intro x hx
      rcases List.mem_append.1 hx with hx | hx
      · rw [htr] at hx
        simp at hx
      · simp only [List.mem_singleton] at hx
        omega
    simp only [h0, if_true, hfst, le_refl, if_true]
    refine ⟨htrace, by simp, by intro hz; omega⟩
  · have hz : w.pipe_ct.total = 0 := by omega
    simp only [h0, if_false]
    refine ⟨?_, by simp, by simp⟩
    intro x hx
    rw [htr] at hx
    simp at hx

/-- Witness for C1 at a two-destination fanout. -/
theorem publish_dispatch_fanout_invariant_witness :
    (pub_w0.pipe_ct.current_index ≤ pub_w0.pipe_ct.total ∧
     pub_w0.index_trace = []) ∧
    ((∀ x ∈ (wait_publish_step pub_w0).index_trace, x ≤ pub_w0.pipe_ct.total) ∧
     ((wait_publish_step pub_w0).pub_packet_alloc = false ∧
      (wait_publish_step pub_w0).pipe_info_alloc = false ∧
      (wait_publish_step pub_w0).pipe_ct = init_pipe_content) ∧
     (pub_w0.pipe_ct.total = 0 →
      (wait_publish_step pub_w0).msg_alloc = false ∧
      (wait_publish_step pub_w0).recv_armed = true)) ∧
    ((∀ x ∈ (wait_publish_step pub_w1).index_trace, x ≤ pub_w1.pipe_ct.total) ∧
     ((wait_publish_step pub_w1).pub_packet_alloc = false ∧
      (wait_publish_step pub_w1).pipe_info_alloc = false ∧
      (wait_publish_step pub_w1).pipe_ct = init_pipe_content) ∧
     (pub_w1.pipe_ct.total = 0 →
      (wait_publish_step pub_w1).msg_alloc = false ∧
      (wait_publish_step pub_w1).recv_armed = true)) :=
  ⟨⟨by decide, by decide⟩,
   publish_dispatch_fanout_invariant pub_w0 (by decide) (by decide),
   publish_dispatch_fanout_invariant pub_w1 (by decide) (by decide)⟩

/-- C2 counterexample: on a will-less DISCONNECT held by disc_w0 the
    branch leaves the pipe-index entry of pipe 5 in place and does not
    free the conn-param, so the claimed teardown does not happen. -/
theorem clean_disconnect_no_teardown_counterexample :
    dbhash_check_id disc_w0.pid (recv_disconnect_step disc_w0).pipe_index
      = true ∧
    (recv_disconnect_step disc_w0).cparam_freed = false := by
  decide

/-- C2 (amended): for every DISCONNECT received in state RECV whose
    conn-param has will-flag = 0, the worker clears the message slot and
    re-arms the receive in state RECV; the pipe-index entry and the
    conn-param are left untouched by this branch (their teardown happens
    in the DISCONNECT_EV path). -/
theorem clean_disconnect_rearms_only (w : disc_work)
    (h : conn_param_get_will_flag w.cparam = false) :
    (recv_disconnect_step w).msg = none ∧
    (recv_disconnect_step w).state = WorkState.RECV ∧
    (recv_disconnect_step w).recv_armed = true ∧
    (recv_disconnect_step w).pipe_index = w.pipe_index ∧
    (recv_disconnect_step w).cparam_freed = w.cparam_freed := by
  unfold recv_disconnect_step
  rw [h]
  simp

/-- Witness for the amended C2 at disc_w0. -/
theorem clean_disconnect_rearms_only_witness :
    conn_param_get_will_flag disc_w0.cparam = false ∧
    ((recv_disconnect_step disc_w0).msg = none ∧
     (recv_disconnect_step disc_w0).state = WorkState.RECV ∧
     (recv_disconnect_step disc_w0).recv_armed = true ∧
     (recv_disconnect_step disc_w0).pipe_index = disc_w0.pipe_index ∧
     (recv_disconnect_step disc_w0).cparam_freed = disc_w0.cparam_freed) :=
  ⟨by decide, clean_disconnect_rearms_only disc_w0 (by decide)⟩

/-- C5 counterexample: on the DISCONNECT with a will held by disc_w1 the
    branch neither drops the pipe-index entry of pipe 5 nor frees the
    conn-param, refuting those two parts of the claim. -/
theorem will_disconnect_no_teardown_counterexample :
    dbhash_check_id disc_w1.pid (recv_disconnect_step disc_w1).pipe_index
      = true ∧
    (recv_disconnect_step disc_w1).cparam_freed = false := by
  decide

/-- C5 (amended): for every DISCONNECT received in state RECV whose
    conn-param has will-flag = 1, the worker composes a PUBLISH from the
    will fields (will-topic, will-msg, will-qos, will-retain), tags it
    CMD_PUBLISH and runs the publish handler on it, then proceeds in
    state WAIT; the pipe-index entry and the conn-param are left
    untouched by this branch. -/
theorem will_disconnect_promotes_will (w : disc_work)
    (h : conn_param_get_will_flag w.cparam = true) :
    (recv_disconnect_step w).pub_handled =
      some { cmd := cmd_type.CMD_PUBLISH, header := [],
             retain := conn_param_get_will_retain w.cparam,
             qos := conn_param_get_will_qos w.cparam,
             topic := (conn_param_get_will_topic w.cparam).body,
             payload := (conn_param_get_will_msg w.cparam).body,
             pipe := 0 } ∧
    (recv_disconnect_step w).state = WorkState.WAIT ∧
    (recv_disconnect_step w).pipe_index = w.pipe_index ∧
    (recv_disconnect_step w).cparam_freed = w.cparam_freed := by
  unfold recv_disconnect_step
  rw [h]
  simp [handle_pub_disc, nano_msg_composer, nng_msg_set_cmd_type]

/-- Witness for the amended C5 at disc_w1. -/
theorem will_disconnect_promotes_will_witness :
    conn_param_get_will_flag disc_w1.cparam = true ∧
    ((recv_disconnect_step disc_w1).pub_handled =
      some { cmd := cmd_type.CMD_PUBLISH, header := [],
             retain := conn_param_get_will_retain disc_w1.cparam,
             qos := conn_param_get_will_qos disc_w1.cparam,
             topic := (conn_param_get_will_topic disc_w1.cparam).body,
             payload := (conn_param_get_will_msg disc_w1.cparam).body,
             pipe := 0 } ∧
     (recv_disconnect_step disc_w1).state = WorkState.WAIT ∧
     (recv_disconnect_step disc_w1).pipe_index = disc_w1.pipe_index ∧
     (recv_disconnect_step disc_w1).cparam_freed = disc_w1.cparam_freed) :=
  ⟨by decide, will_disconnect_promotes_will disc_w1 (by decide)⟩

/-- Processing DISCONNECT_EV with a non-null client-id and clean-start 0
    leaves the session cache holding exactly the freshly cached session in
    front. -/
theorem ev_step_sessions (w : ev_work) (cp : conn_param) (cid : String)
    (h1 : w.cparam = some cp) (h2 : cp.clientid = some cid)
    (h3 : cp.clean_start = 0) :
    (recv_disconnect_ev_step w).db.sessions =
      (cid, { scparam := cp, spipe := w.pid,
              subs := dbhash_get_topic_queue w.pid w.db.pipe_index }) ::
        w.db.sessions.filter (fun e => decide (e.1 ≠ cid)) := by
  unfold recv_disconnect_ev_step
  rw [h1]
  simp only [conn_param_get_clientid, h2, conn_param_get_clean_start, h3,
    if_true, cache_session]
  by_cases hchk : dbhash_check_id w.pid
      ((cache_session cid cp w.pid w.db).pipe_index)
  · simp [cache_session] at hchk
    simp [hchk, cache_session]
  · simp [cache_session] at hchk
    simp [hchk, cache_session]

/-- C3: a DISCONNECT_EV with non-null client-id and clean-start 0 caches
    the session (conn-param and subscription list) under the client-id,
    and the CMD_CONNACK path of a subsequent CONNECT with the same
    client-id restores the cached subscription set, re-binding it to the
    new pipe-id in the pipe index and in every topic-tree node. -/
theorem session_cached_and_restored (w1 : ev_work) (cp : conn_param)
    (cid : String) (w2 : connack_work) (cp2 : conn_param)
    (h1 : w1.cparam = some cp) (h2 : cp.clientid = some cid)
    (h3 : cp.clean_start = 0)
    (hdb : w2.db = (recv_disconnect_ev_step w1).db)
    (h4 : w2.cparam = some cp2) (h5 : cp2.clientid = some cid)
    (h6 : cp2.clean_start = 0) :
    assoc_get cid (recv_disconnect_ev_step w1).db.sessions =
      some { scparam := cp, spipe := w1.pid,
             subs := dbhash_get_topic_queue w1.pid w1.db.pipe_index } ∧
    assoc_get w2.pid (recv_connack_step w2).db.pipe_index =
      some (dbhash_get_topic_queue w1.pid w1.db.pipe_index) ∧
    (∀ f ps, (f, ps) ∈ (recv_connack_step w2).db.tree_subs →
      f ∈ dbhash_get_topic_queue w1.pid w1.db.pipe_index → w2.pid ∈ ps) := by
  have hsess : assoc_get cid (recv_disconnect_ev_step w1).db.sessions =
      some { scparam := cp, spipe := w1.pid,
             subs := dbhash_get_topic_queue w1.pid w1.db.pipe_index } := by
    rw [ev_step_sessions w1 cp cid h1 h2 h3]
    simp [assoc_get]
  have hdb2 : (recv_connack_step w2).db =
      restore_session cid cp2 w2.pid w2.db := by
    unfold recv_connack_step
    rw [h4]
    simp [conn_param_get_clientid, h5]
  have hres : restore_session cid cp2 w2.pid w2.db =
      { pipe_index := (w2.pid, dbhash_get_topic_queue w1.pid w1.db.pipe_index) ::
          w2.db.pipe_index.filter (fun e => decide (e.1 ≠ w2.pid)),
        tree_subs := w2.db.tree_subs.map (fun e =>
          if e.1 ∈ dbhash_get_topic_queue w1.pid w1.db.pipe_index then
            (e.1, w2.pid :: e.2.filter (fun p => decide (p ≠ w1.pid)))
          else e),
        sessions := w2.db.sessions.filter (fun e => decide (e.1 ≠ cid)) } := by
    unfold restore_session
    rw [hdb, hsess]
    simp [conn_param_get_clean_start, h6]
  refine ⟨hsess, ?_, ?_⟩
  · rw [hdb2, hres]
    simp [assoc_get]
  · rw [hdb2, hres]
    intro f ps hmem hf
    simp only [List.mem_map] at hmem
    rcases hmem with ⟨e, he, heq⟩
    by_cases he1 : e.1 ∈ dbhash_get_topic_queue w1.pid w1.db.pipe_index
    · rw [if_pos he1] at heq
      have : ps = w2.pid :: e.2.filter (fun p => decide (p ≠ w1.pid)) := by
        have := congrArg Prod.snd heq
        simpa using this.symm
      rw [this]
      exact List.mem_cons_self _ _
    · rw [if_neg he1] at heq
      have hfe : f = e.1 := by
        have := congrArg Prod.fst heq
        simpa using this.symm
      rw [hfe] at hf
      exact absurd hf he1

/-- Witness for C3: alice disconnects on pipe 7 with clean-start 0 and
    reconnects on pipe 8; her news subscription is cached and re-bound. -/
theorem session_cached_and_restored_witness :
    (ev_w0.cparam = some cp_nowill ∧ cp_nowill.clientid = some "alice" ∧
     cp_nowill.clean_start = 0 ∧
     cn_w0.db = (recv_disconnect_ev_step ev_w0).db ∧
     cn_w0.cparam = some cp_alice2 ∧ cp_alice2.clientid = some "alice" ∧
     cp_alice2.clean_start = 0) ∧
    (assoc_get "alice" (recv_disconnect_ev_step ev_w0).db.sessions =
       some { scparam := cp_nowill, spipe := ev_w0.pid,
              subs := dbhash_get_topic_queue ev_w0.pid ev_w0.db.pipe_index } ∧
     assoc_get cn_w0.pid (recv_connack_step cn_w0).db.pipe_index =
       some (dbhash_get_topic_queue ev_w0.pid ev_w0.db.pipe_index) ∧
     (∀ f ps, (f, ps) ∈ (recv_connack_step cn_w0).db.tree_subs →
       f ∈ dbhash_get_topic_queue ev_w0.pid ev_w0.db.pipe_index →
       cn_w0.pid ∈ ps)) :=
  ⟨⟨rfl, rfl, rfl, rfl, rfl, rfl, rfl⟩,
   session_cached_and_restored ev_w0 cp_nowill "alice" cn_w0 cp_alice2
     rfl rfl rfl rfl rfl rfl rfl⟩

/-- C4: on a CMD_CONNACK processed in state RECV with a non-null
    conn-param, the branch clones the conn-param exactly once, before the
    asynchronous CONNACK send, and releases it exactly once, after the
    connect-event publication is composed: one clone, one release, in
    that order in the life-cycle trace. -/
theorem connack_clone_release_balance (w : connack_work) (cp : conn_param)
    (h : w.cparam = some cp) (he : w.events = [])
    (hc : w.clone_count = 0) (hf : w.free_count = 0) :
    (recv_connack_step w).clone_count = 1 ∧
    (recv_connack_step w).free_count = 1 ∧
    (recv_connack_step w).events =
      [cp_event.clone, cp_event.send_connack,
       cp_event.notify_composed, cp_event.free] := by
  unfold recv_connack_step
  rw [h]
  cases hcid : conn_param_get_clientid cp <;>
    simp [hcid, he, hc, hf]

/-- Witness for C4 at the concrete CONNACK work item cn_w0. -/
theorem connack_clone_release_balance_witness :
    (cn_w0.cparam = some cp_alice2 ∧ cn_w0.events = [] ∧
     cn_w0.clone_count = 0 ∧ cn_w0.free_count = 0) ∧
    ((recv_connack_step cn_w0).clone_count = 1 ∧
     (recv_connack_step cn_w0).free_count = 1 ∧
     (recv_connack_step cn_w0).events =
       [cp_event.clone, cp_event.send_connack,
        cp_event.notify_composed, cp_event.free]) :=
  ⟨⟨rfl, rfl, rfl, rfl⟩,
   connack_clone_release_balance cn_w0 cp_alice2 rfl rfl rfl rfl⟩

/-- C6: with bridge_mode enabled, a locally received PUBLISH whose topic
    matches at least one configured forwards filter is composed into a
    new PUBLISH carrying the same topic, payload, dup, qos and retain and
    handed to the bridge context, while a PUBLISH matching no forwards
    filter is not forwarded. -/
theorem bridge_forwards_matching_publish (bridge : conf_bridge_fw)
    (pkt : pub_packet_struct) (hm : bridge.bridge_mode = true) :
    ((∃ f ∈ bridge.forwards, topic_filter f pkt.topic_name = true) →
      recv_publish_bridge bridge pkt =
        some { topic := pkt.topic_name, payload := pkt.payload,
               payload_len := pkt.payload_len, dup := pkt.dup,
               qos := pkt.qos, retain := pkt.retain }) ∧
    ((∀ f ∈ bridge.forwards, topic_filter f pkt.topic_name = false) →
      recv_publish_bridge bridge pkt = none) := by
  constructor
  · rintro ⟨f, hf, hmatch⟩
    have hfound : forwards_found bridge.forwards pkt.topic_name = true := by
      unfold forwards_found
      exact List.any_eq_true.2 ⟨f, hf, hmatch⟩
    unfold recv_publish_bridge
    rw [hm, hfound]
    simp [bridge_publish_msg]
  · intro hall
    have hfound : forwards_found bridge.forwards pkt.topic_name = false := by
      unfold forwards_found
      simp only [List.any_eq_false]
      intro f hf
      simp [hall f hf]
    unfold recv_publish_bridge
    rw [hm, hfound]
    simp

/-- Witness for C6 at scenario S5: cloud/temp is forwarded with its
    fields preserved, local/temp is not forwarded. -/
theorem bridge_forwards_matching_publish_witness :
    bridge_fw0.bridge_mode = true ∧
    (∃ f ∈ bridge_fw0.forwards, topic_filter f pkt_cloud.topic_name = true) ∧
    recv_publish_bridge bridge_fw0 pkt_cloud =
      some { topic := "cloud/temp", payload := "21", payload_len := 2,
             dup := false, qos := 1, retain := false } ∧
    (∀ f ∈ bridge_fw0.forwards, topic_filter f pkt_local.topic_name = false) ∧
    recv_publish_bridge bridge_fw0 pkt_local = none :=
  ⟨rfl, by decide,
   (bridge_forwards_matching_publish bridge_fw0 pkt_cloud rfl).1 (by decide),
   by decide,
   (bridge_forwards_matching_publish bridge_fw0 pkt_local rfl).2 (by decide)⟩

/-- The pipe index never holds an entry for a pipe-id just deleted. -/
theorem assoc_get_del (pid : Nat) (idx : List (Nat × List String)) :
    assoc_get pid (dbhash_del_topic_queue pid idx) = none := by
  induction idx with
  | nil => rfl
  | cons hd t ih =>
    obtain ⟨a, b⟩ := hd
    by_cases hp : a = pid
    · simpa [dbhash_del_topic_queue, List.filter, hp] using ih
    · simpa [dbhash_del_topic_queue, List.filter, hp, assoc_get] using ih

/-- C7: on a SUBSCRIBE in state WAIT, if decode, context handling or
    SUBACK encoding fails, the worker frees the sub packet and the
    inbound message and removes the pipe-index (topic-queue) entry for
    the pipe-id; on success the entry (with the new filters recorded) is
    kept and a SUBACK is sent in state SEND. -/
theorem subscribe_failure_teardown (w : sub_work) (filters : List String)
    (d c e : reason_code) :
    (¬(d = reason_code.SUCCESS ∧ c = reason_code.SUCCESS ∧
        e = reason_code.SUCCESS) →
      (wait_subscribe_step w filters d c e).sub_pkt_alloc = false ∧
      (wait_subscribe_step w filters d c e).msg_freed = true ∧
      dbhash_check_id w.pid
        (wait_subscribe_step w filters d c e).pipe_index = false) ∧
    ((d = reason_code.SUCCESS ∧ c = reason_code.SUCCESS ∧
        e = reason_code.SUCCESS) →
      assoc_get w.pid (wait_subscribe_step w filters d c e).pipe_index =
        some (((assoc_get w.pid w.pipe_index).getD []) ++ filters) ∧
      out_msg.suback ∈ (wait_subscribe_step w filters d c e).sends ∧
      (wait_subscribe_step w filters d c e).state = WorkState.SEND) := by
  constructor
  · intro hfail
    unfold wait_subscribe_step
    by_cases hd : d = reason_code.SUCCESS
    · by_cases hc : c = reason_code.SUCCESS
      · have hne : ¬(e = reason_code.SUCCESS) := fun hE => hfail ⟨hd, hc, hE⟩
        simp only [hd, hc, hne]
        refine ⟨by trivial, by trivial, ?_⟩
        simp only [ne_eq, not_true_eq_false, if_false, not_false_eq_true,
          if_true, hne]
        have hck : dbhash_check_id w.pid
            (sub_ctx_handle_index w.pid filters w.pipe_index) = true := by
          simp [dbhash_check_id, sub_ctx_handle_index, assoc_get]
        rw [if_pos hck]
        simp [dbhash_check_id, assoc_get_del]
      · simp only [hd, hc]
        refine ⟨by trivial, by trivial, ?_⟩
        simp only [ne_eq, not_true_eq_false, if_false, not_false_eq_true,
          if_true, hc]
        have hck : dbhash_check_id w.pid
            (sub_ctx_handle_index w.pid filters w.pipe_index) = true := by
          simp [dbhash_check_id, sub_ctx_handle_index, assoc_get]
        rw [if_pos hck]
        simp [dbhash_check_id, assoc_get_del]
    · simp only [hd]
      refine ⟨by trivial, by trivial, ?_⟩
      simp only [ne_eq, not_false_eq_true, if_true, hd]
      by_cases hchk : dbhash_check_id w.pid w.pipe_index
      · rw [if_pos hchk]
        simp [dbhash_check_id, assoc_get_del]
      · rw [if_neg hchk]
        simpa using hchk
  · rintro ⟨hd, hc, he⟩
    unfold wait_subscribe_step
    simp only [hd, hc, he]
    refine ⟨?_, ?_, by trivial⟩
    · simp [sub_ctx_handle_index, assoc_get]
    · simp

/-- Witness for C7: a failing decode removes pipe 3's entry, a fully
    successful handling keeps it and sends the SUBACK. -/
theorem subscribe_failure_teardown_witness :
    (¬(reason_code.ERR 1 = reason_code.SUCCESS ∧
       reason_code.SUCCESS = reason_code.SUCCESS ∧
       reason_code.SUCCESS = reason_code.SUCCESS) ∧
     (wait_subscribe_step sub_w0 ["news/#"] (reason_code.ERR 1)
        reason_code.SUCCESS reason_code.SUCCESS).sub_pkt_alloc = false ∧
     (wait_subscribe_step sub_w0 ["news/#"] (reason_code.ERR 1)
        reason_code.SUCCESS reason_code.SUCCESS).msg_freed = true ∧
     dbhash_check_id sub_w0.pid
       (wait_subscribe_step sub_w0 ["news/#"] (reason_code.ERR 1)
          reason_code.SUCCESS reason_code.SUCCESS).pipe_index = false) ∧
    (assoc_get sub_w0.pid
       (wait_subscribe_step sub_w0 ["news/#"] reason_code.SUCCESS
          reason_code.SUCCESS reason_code.SUCCESS).pipe_index =
       some (((assoc_get sub_w0.pid sub_w0.pipe_index).getD []) ++
         ["news/#"]) ∧
     out_msg.suback ∈
       (wait_subscribe_step sub_w0 ["news/#"] reason_code.SUCCESS
          reason_code.SUCCESS reason_code.SUCCESS).sends ∧
     (wait_subscribe_step sub_w0 ["news/#"] reason_code.SUCCESS
        reason_code.SUCCESS reason_code.SUCCESS).state = WorkState.SEND) :=
  ⟨⟨by decide,
    (subscribe_failure_teardown sub_w0 ["news/#"] (reason_code.ERR 1)
       reason_code.SUCCESS reason_code.SUCCESS).1 (by decide)⟩,
   (subscribe_failure_teardown sub_w0 ["news/#"] reason_code.SUCCESS
      reason_code.SUCCESS reason_code.SUCCESS).2 (by decide)⟩

/-- C9: on a successfully handled SUBSCRIBE whose retained-replay vector
    is non-empty, the worker's outbound sequence is exactly the retained
    replays followed by the SUBACK, so every retained message is sent
    before the SUBACK send is issued. -/
theorem retained_replays_precede_suback (w : sub_work)
    (filters : List String) (hs : w.sends = []) (hne : w.msg_ret ≠ []) :
    (wait_subscribe_step w filters reason_code.SUCCESS reason_code.SUCCESS
       reason_code.SUCCESS).sends =
      w.msg_ret.map out_msg.retained ++ [out_msg.suback] := by
  unfold wait_subscribe_step
  simp [hs]

/-- Witness for C9 at a subscribe carrying one retained replay. -/
theorem retained_replays_precede_suback_witness :
    (sub_w1.sends = [] ∧ sub_w1.msg_ret ≠ []) ∧
    (wait_subscribe_step sub_w1 ["state/door"] reason_code.SUCCESS
       reason_code.SUCCESS reason_code.SUCCESS).sends =
      sub_w1.msg_ret.map out_msg.retained ++ [out_msg.suback] :=
  ⟨⟨by decide, by decide⟩,
   retained_replays_precede_suback sub_w1 ["state/door"] (by decide)
     (by decide)⟩

/-- C10: every UNSUBSCRIBE processed in state WAIT, whatever the decode
    and handler outcomes, sends its UNSUBACK with pipe id 0 instead of
    the requesting pipe's id and moves the worker to SEND. -/
theorem unsuback_sent_with_pipe_zero (w : unsub_work)
    (d c e : reason_code) :
    (wait_unsubscribe_step w d c e).out_pipe = some 0 ∧
    (wait_unsubscribe_step w d c e).pid = 0 ∧
    (wait_unsubscribe_step w d c e).state = WorkState.SEND := by
  unfold wait_unsubscribe_step
  exact ⟨rfl, rfl, rfl⟩

/-- C8 (code bug): broker_parse_opts stores atoi of the -t and -T
    arguments into the configuration with no range check, so the
    out-of-range values 300 and 0 are accepted although the program's own
    usage text requires a value greater than 0 and less than 256. -/
theorem taskq_thread_opts_unchecked :
    (broker_apply_opt conf_zero options.OPT_THREADS "300").num_taskq_thread
      = 300 ∧
    (broker_apply_opt conf_zero options.OPT_MAX_THREADS "300").max_taskq_thread
      = 300 ∧
    (broker_apply_opt conf_zero options.OPT_THREADS "0").num_taskq_thread
      = 0 := by
  refine ⟨?_, ?_, ?_⟩ <;> decide

end NanoMQ
